import Mathlib

set_option maxRecDepth 4096

/-!
# AgentFund MCP server — verification development

Shallow embedding of `src/dist/index.js` (the AgentFund MCP server):
the tool dispatcher (`setupHandlers`), the six tool handlers, and the
ethers-v6 primitives they call (`parseEther`, `formatEther`, string to
BigInt conversion, ABI argument bounds checks).

Modelling conventions:
* JS `bigint` values are `Int` (arithmetic is exact in both).
* A thrown JS exception is `Except.error msg` where `msg` is the
  exception's `message` string.
* Each handler additionally returns a trace (`List Ev`) of the chain
  RPC calls it attempted and the calldata-encoding calls it reached,
  in execution order.
* The chain (an external collaborator reached over RPC) is an oracle
  `Chain`: a project count plus a per-id result, each RPC read either
  succeeding with a `Project` tuple or failing (revert/network error).
* ABI byte-encoding is an external collaborator (ethers `Interface`);
  calldata is modelled as the canonical (function, typed arguments)
  value it encodes, which the byte encoding determines injectively.
  Its argument validation (address shape, uint256 bounds), which is
  what the handlers can observe, is modelled explicitly.
* `Number(x)` conversions of bigints are modelled exactly (the only
  values so converted are status codes `< 256` and milestone indices;
  IEEE-754 rounding above `2^53` is out of the claims' scope).
-/

namespace AgentFund

/-! ## Characters and digit strings -/

def isDigitChar (c : Char) : Bool :=
  '0' ≤ c && c ≤ '9'

/-- Numeric value of a digit string (most significant first). -/
def natOfDigits (cs : List Char) : Nat :=
  cs.foldl (fun n c => n * 10 + (c.toNat - 48)) 0

/-- JS `String.prototype.toLowerCase` on the ASCII range (addresses are
ASCII hex strings). -/
def toLowerCase (s : String) : String :=
  String.mk (s.toList.map Char.toLower)

/-- Split a character list at every `.` (mirrors the
`([0-9]*)\.?([0-9]*)`-style decomposition: `""` gives `[[]]`,
`"a.b"` gives `[[a],[b]]`). -/
def splitOnDot : List Char → List (List Char)
  | [] => [[]]
  | c :: cs =>
    if c = '.' then [] :: splitOnDot cs
    else
      match splitOnDot cs with
      | [] => [[c]]
      | h :: t => (c :: h) :: t

/-! ## ethers v6 primitives

`parseEther s = parseUnits s 18 = FixedNumber.fromString(s, {decimals
:= 18, width := 512}).value`: the string must match
`^(-?)([0-9]*)\.?([0-9]*)$` with at least one digit; the fraction is
padded to 18 digits, excess fractional digits must all be zero
("too many decimals"), and the resulting signed value must fit the
512-bit signed width. -/

def weiPerEther : Nat := 10 ^ 18

def fixedWidthBound : Int := 2 ^ 511

/-- Value of a sign/whole/fraction decomposition at 18 decimals,
with the ethers `FixedNumber.fromString` validity checks. -/
def fixedValue (neg : Bool) (w f : List Char) : Except String Int :=
  if w.all isDigitChar && f.all isDigitChar && decide (0 < w.length + f.length) then
    if (f.drop 18).all (· == '0') then
      let mag : Nat :=
        natOfDigits w * weiPerEther +
          natOfDigits (f.take 18) * 10 ^ (18 - min f.length 18)
      let v : Int := if neg then -(mag : Int) else (mag : Int)
      if -fixedWidthBound ≤ v && v < fixedWidthBound then .ok v
      else .error "overflow"
    else .error "too many decimals for format"
  else .error "invalid FixedNumber string value"

def parseEtherBody (neg : Bool) (cs : List Char) : Except String Int :=
  match splitOnDot cs with
  | [w] => fixedValue neg w []
  | [w, f] => fixedValue neg w f
  | _ => .error "invalid FixedNumber string value"

/-- `ethers.parseEther`: decimal ether string to wei (`10^-18` ether,
the smallest unit), exact. -/
def parseEther (s : String) : Except String Int :=
  match s.toList with
  | '-' :: rest => parseEtherBody true rest
  | cs => parseEtherBody false cs

/-- Left-pad a digit string with zeros to length `n`. -/
def padLeftZeros (s : String) (n : Nat) : String :=
  String.mk (List.replicate (n - s.length) '0') ++ s

/-- Drop trailing zeros but keep at least one digit (the ethers
`FixedNumber.toString` fraction trimming). -/
def trimTrailingZeros (s : String) : String :=
  match s.toList.reverse.dropWhile (· == '0') with
  | [] => "0"
  | l => String.mk l.reverse

/-- `ethers.formatEther`: wei to decimal ether string, trailing zeros
trimmed, at least one fractional digit (`0` renders as `"0.0"`). -/
def formatEther (v : Int) : String :=
  let sign := if v < 0 then "-" else ""
  let n := v.natAbs
  sign ++ toString (n / weiPerEther) ++ "." ++
    trimTrailingZeros (padLeftZeros (toString (n % weiPerEther)) 18)

/-- JS `BigInt(string)` on the decimal forms the server can feed it:
optional sign then digits; the empty string is `0`; anything else
throws (hex/whitespace forms never arise here). -/
def jsBigIntOfString (s : String) : Except String Int :=
  if s = "" then .ok 0
  else
    match s.toList with
    | '-' :: body =>
      if body.all isDigitChar && decide (0 < body.length) then
        .ok (-(natOfDigits body : Int))
      else .error "Cannot convert to a BigInt"
    | body =>
      if body.all isDigitChar then .ok (natOfDigits body : Int)
      else .error "Cannot convert to a BigInt"

/-- `ethers.getBigInt` as applied to a tool argument that may be
absent: `undefined` is rejected, a string goes through `BigInt`. -/
def getBigInt : Option String → Except String Int
  | none => .error "invalid BigNumberish value"
  | some s => jsBigIntOfString s

/-- uint256 range check performed by the ABI number coder. -/
def uint256Ok (v : Int) : Bool :=
  decide (0 ≤ v) && decide (v < 2 ^ 256)

def isHexChar (c : Char) : Bool :=
  isDigitChar c || ('a' ≤ c && c ≤ 'f') || ('A' ≤ c && c ≤ 'F')

/-- Address shape check performed by the ABI address coder
(`0x` + 40 hex digits; EIP-55 checksum validation of mixed-case
strings is elided — every address the claims exercise is lowercase). -/
def isAddress (s : String) : Bool :=
  let cs := s.toList
  decide (cs.take 2 = ['0', 'x']) && decide (cs.length = 42) &&
    (cs.drop 2).all isHexChar

/-! ## Data model -/

/-- The 7-tuple a `getProject` view call returns:
`(funder, agent, totalAmount, releasedAmount, currentMilestone,
totalMilestones, status)`.  Amounts and counters are uint256 (`Nat`),
`status` is a uint8 code. -/
structure Project where
  funder : String
  agent : String
  totalAmount : Nat
  releasedAmount : Nat
  currentMilestone : Nat
  totalMilestones : Nat
  status : Nat
deriving DecidableEq, Repr

/-- Oracle for the escrow contract reached over RPC: the value of
`projectCount()` and, per id, the outcome of a `getProject(id)` view
call (`.error` = revert or network failure). -/
structure Chain where
  projectCount : Nat
  getProject : Nat → Except String Project

/-- Trace of externally visible calls a handler attempts, in
execution order. -/
inductive Ev where
  | projectCountCall : Ev
  | getProjectCall : Nat → Ev
  | encodeCall : String → Ev
deriving DecidableEq, Repr

/-- The named-argument mapping of a tool request; `none` is a field
absent from the mapping (JS `undefined`). -/
structure Args where
  projectId : Option String
  agentAddress : Option String
  milestoneAmountsEth : Option (List String)
  projectDescription : Option String
  completedWork : Option String
deriving DecidableEq, Repr

/-- A tool response: the `text` of each `content` item, and the
`isError` flag (absent = `false`). -/
structure ToolResult where
  content : List String
  isError : Bool
deriving DecidableEq, Repr

/-- Calldata as the canonical (function, typed arguments) value the
external ABI encoder serialises (injectively) into bytes. -/
inductive Calldata where
  | createProject : String → List Int → Calldata
  | releaseMilestone : Int → Calldata
deriving DecidableEq, Repr

/-- Symbolic stand-in for the hex rendering of calldata (the byte
serialisation lives in the external ABI encoder; the handlers only
interpolate it into text). -/
def calldataHex : Calldata → String
  | .createProject a ms =>
    "0xcall createProject(" ++ a ++ ",[" ++
      String.intercalate "," (ms.map toString) ++ "])"
  | .releaseMilestone pid => "0xcall releaseMilestone(" ++ toString pid ++ ")"

/-- `ethers.Interface.encodeFunctionData("createProject", [agent,
milestoneWei])`: the address coder validates the address, the
uint256[] coder bounds-checks every amount. -/
def encodeCreateProject (agent : Option String) (amounts : List Int) :
    Except String Calldata :=
  match agent with
  | none => .error "invalid address"
  | some a =>
    if isAddress a then
      if amounts.all uint256Ok then .ok (.createProject a amounts)
      else .error "value out-of-bounds"
    else .error "invalid address"

/-- `ethers.Interface.encodeFunctionData("releaseMilestone",
[projectId])` with the string-to-bigint conversion and uint256 bounds
check. -/
def encodeReleaseMilestone (pid : Option String) : Except String Calldata :=
  match getBigInt pid with
  | .error e => .error e
  | .ok n => if uint256Ok n then .ok (.releaseMilestone n) else .error "value out-of-bounds"

/-- `contract.getProject(idArg)`: ethers converts the argument to a
bigint and ABI-encodes it as uint256 (both client-side, before any
RPC); only then is the view call attempted against the chain. -/
def callGetProject (c : Chain) (idArg : Option String) :
    Except String Project × List Ev :=
  match getBigInt idArg with
  | .error e => (.error e, [])
  | .ok n =>
    if uint256Ok n then (c.getProject n.toNat, [.getProjectCall n.toNat])
    else (.error "value out-of-bounds", [])

/-! ## Status labels and text fragments -/

def CONTRACT_ADDRESS : String := "0x6a4420f696c9ba6997f41dddc15b938b54aa009a"

/-- `const ProjectStatus = ["Active", "Completed", "Cancelled"]`. -/
def ProjectStatus : List String := ["Active", "Completed", "Cancelled"]

/-- `ProjectStatus[s]` — JS indexing yields `undefined` (`none`) out
of range. -/
def statusLookup (s : Nat) : Option String := ProjectStatus[s]?

/-- `ProjectStatus[s] || "Unknown"` (the `getProject` handler's
fallback; the status labels are non-empty so `||` only replaces
`undefined`). -/
def statusLabel (s : Nat) : String := (statusLookup s).getD "Unknown"

/-- JS template-literal rendering of a possibly-`undefined` string. -/
def jsStr (o : Option String) : String := o.getD "undefined"

/-! ## Handlers

Each handler is `Chain → Args → Except String ToolResult × List Ev`:
the `Except` is the value returned to (or exception propagated to)
the dispatcher's `try`/`catch`, the list is the call trace. -/

/-- `getProject` (lines 132–160): fetch the tuple, format the three
amounts, and render the fixed multi-line report. -/
def getProjectText (pid : String) (p : Project) : String :=
  "**Project #" ++ pid ++ "**\n" ++
  "Status: " ++ statusLabel p.status ++ "\n" ++
  "Agent (recipient): " ++ p.agent ++ "\n" ++
  "Funder: " ++ p.funder ++ "\n" ++
  "Total: " ++ formatEther p.totalAmount ++ " ETH\n" ++
  "Released: " ++ formatEther p.releasedAmount ++ " ETH\n" ++
  "Remaining: " ++ formatEther ((p.totalAmount : Int) - (p.releasedAmount : Int)) ++ " ETH\n" ++
  "Milestone: " ++ toString p.currentMilestone ++ " of " ++ toString p.totalMilestones

def getProject (c : Chain) (args : Args) : Except String ToolResult × List Ev :=
  match callGetProject c args.projectId with
  | (.error e, t) => (.error e, t)
  | (.ok p, t) => (.ok ⟨[getProjectText (jsStr args.projectId) p], false⟩, t)

/-- `getStats` (lines 161–174). -/
def getStats (c : Chain) : Except String ToolResult × List Ev :=
  (.ok ⟨["**AgentFund Statistics**\n" ++
    "Total Projects: " ++ toString c.projectCount ++ "\n" ++
    "Contract: " ++ CONTRACT_ADDRESS ++ "\n" ++
    "Chain: Base Mainnet\n" ++
    "Platform Fee: 5%\n\n" ++
    "View on BaseScan: https://basescan.org/address/" ++ CONTRACT_ADDRESS],
    false⟩, [.projectCountCall])

/-- The object `findMyProjects` pushes per matching id (line 184–190);
`status` is the raw `ProjectStatus[...]` lookup, without fallback. -/
structure MatchedProject where
  id : Nat
  status : Option String
  total : String
  released : String
  milestone : String
deriving DecidableEq, Repr

def toMatched (i : Nat) (p : Project) : MatchedProject :=
  ⟨i, statusLookup p.status, formatEther p.totalAmount,
    formatEther p.releasedAmount,
    toString p.currentMilestone ++ "/" ++ toString p.totalMilestones⟩

/-- One iteration of the scan loop body (lines 180–196): the fetch and
the case-insensitive agent comparison run inside `try`; any throw —
a failed fetch, or the `.toLowerCase()` of an absent `agentAddress`
argument — is swallowed and the id skipped. -/
def scanStep (c : Chain) (addr : Option String) (i : Nat) : Option MatchedProject :=
  match c.getProject i with
  | .error _ => none
  | .ok p =>
    match addr with
    | none => none
    | some a =>
      if toLowerCase p.agent = toLowerCase a then some (toMatched i p) else none

/-- The ids `1, 2, …, limit` visited by `for (let i = 1; i <= limit; i++)`. -/
def scanIds (limit : Nat) : List Nat := (List.range limit).map (· + 1)

/-- The accumulated `myProjects` list of the scan. -/
def scanMatches (c : Chain) (addr : Option String) : List MatchedProject :=
  (scanIds (min c.projectCount 100)).filterMap (scanStep c addr)

/-- Per-project line of the match report (line 206). -/
def matchLine (m : MatchedProject) : String :=
  "• Project #" ++ toString m.id ++ ": " ++ jsStr m.status ++ " - " ++
    m.released ++ "/" ++ m.total ++ " ETH released (Milestone " ++ m.milestone ++ ")"

/-- The "none found" payload text (lines 201–202). -/
def noneFoundText (addr : String) : String :=
  "No projects found where " ++ addr ++ " is the agent.\n\n" ++
  "To start fundraising, use agentfund_create_fundraise to generate a project proposal that a funder can execute."

/-- `findMyProjects` (lines 175–213): read `projectCount`, scan ids
`1..min(count, 100)` sequentially, and render either the "none found"
text or the joined match lines. -/
def findMyProjects (c : Chain) (args : Args) : Except String ToolResult × List Ev :=
  let myProjects := scanMatches c args.agentAddress
  let trace := Ev.projectCountCall ::
    (scanIds (min c.projectCount 100)).map Ev.getProjectCall
  if myProjects.isEmpty then
    (.ok ⟨[noneFoundText (jsStr args.agentAddress)], false⟩, trace)
  else
    (.ok ⟨["**Your Projects on AgentFund**\n" ++
      String.intercalate "\n" (myProjects.map matchLine)], false⟩, trace)

/-- JS `Array.prototype.map` with a throwing callback: the first
throw propagates, later elements are not visited. -/
def mapExcept (f : α → Except String β) : List α → Except String (List β)
  | [] => .ok []
  | a :: as =>
    match f a with
    | .error e => .error e
    | .ok b =>
      match mapExcept f as with
      | .error e => .error e
      | .ok bs => .ok (b :: bs)

/-- `milestoneWei.reduce((a, b) => a + b, 0n)` — exact bigint
accumulation. -/
def totalValueOf (ws : List Int) : Int := ws.foldl (· + ·) 0

/-- The indented per-milestone breakdown (line 222). -/
def milestoneBreakdownText (amts : List String) : String :=
  String.intercalate "\n"
    (amts.enum.map fun p =>
      "  Milestone " ++ toString (p.1 + 1) ++ ": " ++ p.2 ++ " ETH")

/-- The fundraise proposal payload text (lines 226–236); an absent or
empty (falsy) `projectDescription` contributes nothing. -/
def createFundraiseText (args : Args) (amts : List String) (totalEth : String)
    (txData : Calldata) : String :=
  "**🚀 AgentFund Fundraise Proposal**\n\n" ++
  "Agent (you): " ++ jsStr args.agentAddress ++ "\n" ++
  "Total Funding: " ++ totalEth ++ " ETH\n" ++
  "Milestones: " ++ toString amts.length ++ "\n\n" ++
  "**Milestone Breakdown:**\n" ++ milestoneBreakdownText amts ++ "\n\n" ++
  (match args.projectDescription with
   | some d => if d = "" then "" else "**Project:** " ++ d ++ "\n\n"
   | none => "") ++
  "**For Funder to Execute:**\n" ++
  "To: " ++ CONTRACT_ADDRESS ++ "\n" ++
  "Value: " ++ totalEth ++ " ETH\n" ++
  "Data: " ++ calldataHex txData ++ "\n\n" ++
  "Share this with potential funders. When they execute this transaction, your project will be created and you\u0027ll receive funds as you complete each milestone."

/-- `createFundraise` (lines 214–239): parse every amount to wei
(`.map` throws on the first bad amount, before anything else), sum
with bigint addition, then ABI-encode `createProject`; no chain call
is ever made. -/
def createFundraise (_c : Chain) (args : Args) : Except String ToolResult × List Ev :=
  match args.milestoneAmountsEth with
  | none => (.error "Cannot read properties of undefined (reading \u0027map\u0027)", [])
  | some amts =>
    match mapExcept parseEther amts with
    | .error e => (.error e, [])
    | .ok milestoneWei =>
      let totalEth := formatEther (totalValueOf milestoneWei)
      match encodeCreateProject args.agentAddress milestoneWei with
      | .error e => (.error e, [.encodeCall "createProject"])
      | .ok txData =>
        (.ok ⟨[createFundraiseText args amts totalEth txData], false⟩,
          [.encodeCall "createProject"])

/-- `checkMilestone` (lines 240–279): fetch, then branch on the status
label (an out-of-range code falls through to the `Active`-style
progress branch). -/
def checkMilestone (c : Chain) (args : Args) : Except String ToolResult × List Ev :=
  match callGetProject c args.projectId with
  | (.error e, t) => (.error e, t)
  | (.ok p, t) =>
    let status := statusLookup p.status
    let released := formatEther p.releasedAmount
    let total := formatEther p.totalAmount
    let remaining := formatEther ((p.totalAmount : Int) - (p.releasedAmount : Int))
    if status = some "Completed" then
      (.ok ⟨["✅ **Project #" ++ jsStr args.projectId ++ " - COMPLETED**\n\n" ++
        "All " ++ toString p.totalMilestones ++ " milestones completed!\n" ++
        "Total received: " ++ total ++ " ETH"], false⟩, t)
    else if status = some "Cancelled" then
      (.ok ⟨["❌ **Project #" ++ jsStr args.projectId ++ " - CANCELLED**\n\n" ++
        "Released before cancel: " ++ released ++ " ETH\n" ++
        "Refunded to funder: " ++ remaining ++ " ETH"], false⟩, t)
    else
      (.ok ⟨["📊 **Project #" ++ jsStr args.projectId ++ " - Milestone Status**\n\n" ++
        "Current: Milestone " ++ toString (p.currentMilestone + 1) ++ " of " ++
          toString p.totalMilestones ++ "\n" ++
        "Completed: " ++ toString p.currentMilestone ++ " milestones\n" ++
        "Released so far: " ++ released ++ " ETH\n" ++
        "Remaining: " ++ remaining ++ " ETH\n\n" ++
        "Complete your current milestone work, then use agentfund_generate_release_request to request payment."],
        false⟩, t)

/-- The milestone release request payload text (lines 298–306); an
absent or empty (falsy) `completedWork` contributes nothing. -/
def releaseRequestText (args : Args) (p : Project) (txData : Calldata) : String :=
  "**💰 Milestone Release Request**\n\n" ++
  "Project: #" ++ jsStr args.projectId ++ "\n" ++
  "Milestone: " ++ toString (p.currentMilestone + 1) ++ "\n" ++
  "Funder: " ++ p.funder ++ "\n\n" ++
  (match args.completedWork with
   | some w => if w = "" then "" else "**Work Completed:**\n" ++ w ++ "\n\n"
   | none => "") ++
  "**For Funder to Sign:**\n" ++
  "To: " ++ CONTRACT_ADDRESS ++ "\n" ++
  "Data: " ++ calldataHex txData ++ "\n\n" ++
  "Send this to your funder (" ++ p.funder ++ ") to release your payment for this milestone."

/-- `generateReleaseRequest` (lines 280–309): fetch, return an
`isError`-flagged payload naming the status when the label is not
`"Active"` (reaching no encode), otherwise encode `releaseMilestone`
and render the unsigned-transaction payload. -/
def generateReleaseRequest (c : Chain) (args : Args) : Except String ToolResult × List Ev :=
  match callGetProject c args.projectId with
  | (.error e, t) => (.error e, t)
  | (.ok p, t) =>
    let status := statusLookup p.status
    if status ≠ some "Active" then
      (.ok ⟨["Cannot release milestone - project is " ++ jsStr status], true⟩, t)
    else
      match encodeReleaseMilestone args.projectId with
      | .error e => (.error e, t ++ [.encodeCall "releaseMilestone"])
      | .ok txData =>
        (.ok ⟨[releaseRequestText args p txData], false⟩,
          t ++ [.encodeCall "releaseMilestone"])

/-! ## Dispatcher -/

/-- The six registered tool names (the `ListToolsRequestSchema`
registry, lines 32–102). -/
def toolNames : List String :=
  ["agentfund_get_project", "agentfund_get_stats", "agentfund_find_my_projects",
   "agentfund_create_fundraise", "agentfund_check_milestone",
   "agentfund_generate_release_request"]

/-- The `switch` inside the `CallToolRequestSchema` handler (lines
107–122): route by name, throw `Unknown tool` on the default branch.
No argument validation happens before the handler runs. -/
def callTool (c : Chain) (name : String) (args : Args) :
    Except String ToolResult × List Ev :=
  if name = "agentfund_get_project" then getProject c args
  else if name = "agentfund_get_stats" then getStats c
  else if name = "agentfund_find_my_projects" then findMyProjects c args
  else if name = "agentfund_create_fundraise" then createFundraise c args
  else if name = "agentfund_check_milestone" then checkMilestone c args
  else if name = "agentfund_generate_release_request" then generateReleaseRequest c args
  else (.error ("Unknown tool: " ++ name), [])

/-- The `catch` conversion (lines 124–129). -/
def errorPayload (msg : String) : ToolResult :=
  ⟨["Error: " ++ msg], true⟩

/-- The full `CallToolRequestSchema` handler (lines 104–130): run the
switch inside `try`, convert any throw into the uniform error
payload.  Total: every request produces a response. -/
def dispatch (c : Chain) (name : String) (args : Args) : ToolResult × List Ev :=
  match callTool c name args with
  | (.ok r, t) => (r, t)
  | (.error e, t) => (errorPayload e, t)

/-! ## Concrete fixtures

A tiny chain used to instantiate hypotheses in the witness theorems:
one project whose agent is the address the repository's own test file
uses, with a configurable status code. -/

def demoAgent : String := "0xc2212629ef3b17c755682b9490711a39468da6bb"

def demoFunder : String := "0xd920fa63b3b1a1e0ca4380a9cbba79daf648a572"

/-- A project with total 0.001 ETH, nothing released, milestone 0 of
1, and the given status code. -/
def demoProject (st : Nat) : Project :=
  ⟨demoFunder, demoAgent, 10 ^ 15, 0, 0, 1, st⟩

/-- A chain holding exactly `demoProject st` at id 1; every other id
reverts. -/
def demoChain (st : Nat) : Chain :=
  ⟨1, fun i => if i = 1 then .ok (demoProject st) else .error "execution reverted"⟩

/-- A chain with no projects at all. -/
def emptyChain : Chain :=
  ⟨0, fun _ => .error "execution reverted"⟩

/-- A request with an empty argument mapping. -/
def noArgs : Args := ⟨none, none, none, none, none⟩

/-- A request asking about project id `"1"`. -/
def pidArgs : Args := ⟨some "1", none, none, none, none⟩

/-- A request asking which projects `demoAgent` is the agent of. -/
def findArgs : Args := ⟨none, some demoAgent, none, none, none⟩

/-- A request asking which projects `demoFunder` is the agent of
(none, on the demo chain). -/
def funderArgs : Args := ⟨none, some demoFunder, none, none, none⟩

/-- A fundraise request with milestones 0.01 and 0.02 ETH. -/
def fundraiseArgs : Args :=
  ⟨none, some demoAgent, some ["0.01", "0.02"], none, none⟩

/-! ## Helper lemmas -/

theorem statusLookup_eq_active (s : Nat) :
    statusLookup s = some "Active" ↔ s = 0 := by
  match s with
  | 0 => simp [statusLookup, ProjectStatus]
  | 1 => simp [statusLookup, ProjectStatus]
  | 2 => simp [statusLookup, ProjectStatus]
  | n + 3 =>
    have : statusLookup (n + 3) = none :=
      List.getElem?_eq_none (by simp [ProjectStatus])
    simp [this]

theorem statusLookup_of_ge_three (s : Nat) (h : 3 ≤ s) :
    statusLookup s = none :=
  List.getElem?_eq_none (by simpa [ProjectStatus] using h)

theorem foldl_add_int (l : List Int) : l.foldl (· + ·) 0 = l.sum := by
  rw [List.sum_eq_foldl]

/-- If some element of the list makes `f` throw, the JS `.map`
throws. -/
theorem mapExcept_error_of_exists {f : α → Except String β} {l : List α}
    (h : ∃ x ∈ l, ∃ e, f x = .error e) :
    ∃ e, mapExcept f l = .error e := by
  induction l with
  | nil => simp at h
  | cons a as ih =>
    obtain ⟨x, hx, e, hfe⟩ := h
    rcases List.mem_cons.mp hx with rfl | hxs
    · exact ⟨e, by simp [mapExcept, hfe]⟩
    · cases hfa : f a with
      | error e2 => exact ⟨e2, by simp [mapExcept, hfa]⟩
      | ok b =>
        obtain ⟨e3, he3⟩ := ih ⟨x, hxs, e, hfe⟩
        exact ⟨e3, by simp [mapExcept, hfa, he3]⟩

/-- A successful JS `.map` contains the image of every element. -/
theorem mapExcept_ok_mem {f : α → Except String β} {l : List α} {ws : List β}
    (hm : mapExcept f l = .ok ws) {x : α} (hx : x ∈ l) {v : β}
    (hfv : f x = .ok v) : v ∈ ws := by
  induction l generalizing ws with
  | nil => simp at hx
  | cons a as ih =>
    unfold mapExcept at hm
    cases hfa : f a with
    | error e => simp [hfa] at hm
    | ok b =>
      rw [hfa] at hm
      cases hrest : mapExcept f as with
      | error e => simp [hrest] at hm
      | ok bs =>
        rw [hrest] at hm
        obtain rfl : b :: bs = ws := by simpa using hm
        rcases List.mem_cons.mp hx with rfl | hxs
        · rw [hfa] at hfv
          exact List.mem_cons.mpr (Or.inl (Except.ok.inj hfv).symm)
        · exact List.mem_cons_of_mem _ (ih hrest hxs)

/-- Ids are reported in strictly ascending order: `filterMap` over a
strictly increasing id list, with a step that tags each output with
its id, yields ids that are strictly increasing. -/
theorem pairwise_filterMap_id {f : Nat → Option MatchedProject}
    (hf : ∀ i m, f i = some m → m.id = i) :
    ∀ l : List Nat, l.Pairwise (· < ·) →
      ((l.filterMap f).map MatchedProject.id).Pairwise (· < ·) := by
  intro l hl
  induction l with
  | nil => simp
  | cons a as ih =>
    rcases List.pairwise_cons.mp hl with ⟨ha, has⟩
    cases hfa : f a with
    | none => simpa [List.filterMap_cons, hfa] using ih has
    | some m =>
      rw [List.filterMap_cons, hfa, List.map_cons, List.pairwise_cons]
      refine ⟨?_, ih has⟩
      intro b hb
      rcases List.mem_map.mp hb with ⟨m2, hm2, rfl⟩
      rcases List.mem_filterMap.mp hm2 with ⟨i2, hi2, hfi2⟩
      rw [hf a m hfa, hf i2 m2 hfi2]
      exact ha i2 hi2

theorem scanIds_pairwise (n : Nat) : (scanIds n).Pairwise (· < ·) :=
  List.Pairwise.map _ (fun a b hh => by omega) (List.pairwise_lt_range n)

theorem mem_scanIds (n i : Nat) : i ∈ scanIds n ↔ 1 ≤ i ∧ i ≤ n := by
  unfold scanIds
  simp only [List.mem_map, List.mem_range]
  constructor
  · rintro ⟨j, hj, rfl⟩; omega
  · rintro ⟨h1, h2⟩; exact ⟨i - 1, by omega, by omega⟩

theorem scanStep_id (c : Chain) (addr : Option String) (i : Nat)
    (m : MatchedProject) (h : scanStep c addr i = some m) : m.id = i := by
  unfold scanStep at h
  cases hp : c.getProject i with
  | error e => rw [hp] at h; exact absurd h (by simp)
  | ok p =>
    rw [hp] at h
    cases addr with
    | none => simp at h
    | some a =>
      dsimp only at h
      by_cases hc : toLowerCase p.agent = toLowerCase a
      · rw [if_pos hc] at h
        cases h; rfl
      · rw [if_neg hc] at h; simp at h

/-- With an absent `agentAddress` every comparison throws inside the
per-id `try`, so every id is skipped. -/
theorem scanStep_none_addr (c : Chain) (i : Nat) :
    scanStep c none i = none := by
  unfold scanStep
  cases c.getProject i <;> simp

/-- The `switch` routes the `agentfund_create_fundraise` name to the
`createFundraise` handler. -/
theorem callTool_create_fundraise (c : Chain) (args : Args) :
    callTool c "agentfund_create_fundraise" args = createFundraise c args := rfl

theorem callTool_find_my_projects (c : Chain) (args : Args) :
    callTool c "agentfund_find_my_projects" args = findMyProjects c args := rfl

/-! ## Claim theorems -/

/-- C1: every exception a handler (chain call or formatting) raises is
caught at the dispatcher boundary and converted into the uniform error
payload — `isError` set, single text item `"Error: " ++` the
stringified cause — and `dispatch` still returns that response (it is
a total function: no handler failure escapes it, so the serving
process is never terminated by one). -/
theorem dispatch_catches_handler_errors (c : Chain) (name : String)
    (args : Args) (e : String) (h : (callTool c name args).1 = .error e) :
    dispatch c name args = (errorPayload e, (callTool c name args).2) ∧
      (errorPayload e).isError = true ∧
      (errorPayload e).content = ["Error: " ++ e] := by
  refine ⟨?_, rfl, rfl⟩
  rcases hE : callTool c name args with ⟨res, t⟩
  rw [hE] at h
  cases res with
  | ok r => simp at h
  | error e2 =>
    obtain rfl : e2 = e := by simpa using h
    simp [dispatch, hE]

theorem dispatch_catches_handler_errors_witness :
    (callTool (demoChain 0) "agentfund_create_fundraise"
        ⟨none, some demoAgent, some ["abc"], none, none⟩).1 =
      .error "invalid FixedNumber string value" ∧
    dispatch (demoChain 0) "agentfund_create_fundraise"
        ⟨none, some demoAgent, some ["abc"], none, none⟩ =
      (errorPayload "invalid FixedNumber string value",
        (callTool (demoChain 0) "agentfund_create_fundraise"
          ⟨none, some demoAgent, some ["abc"], none, none⟩).2) :=
  ⟨rfl, (dispatch_catches_handler_errors (demoChain 0) "agentfund_create_fundraise"
    ⟨none, some demoAgent, some ["abc"], none, none⟩
    "invalid FixedNumber string value" (by rfl)).1⟩

/-- C9: a request whose tool name is not one of the six registered
names makes the `switch` throw `Unknown tool`, which the dispatcher
catches and returns as an error payload — no exception escapes and no
handler or chain call runs (empty trace). -/
theorem dispatch_unknown_tool (c : Chain) (args : Args) (name : String)
    (h : name ∉ toolNames) :
    callTool c name args = (.error ("Unknown tool: " ++ name), []) ∧
    dispatch c name args = (errorPayload ("Unknown tool: " ++ name), []) := by
  simp only [toolNames, List.mem_cons, List.not_mem_nil, or_false, not_or] at h
  obtain ⟨h1, h2, h3, h4, h5, h6⟩ := h
  have hc : callTool c name args = (.error ("Unknown tool: " ++ name), []) := by
    unfold callTool
    rw [if_neg h1, if_neg h2, if_neg h3, if_neg h4, if_neg h5, if_neg h6]
  exact ⟨hc, by simp [dispatch, hc]⟩

theorem dispatch_unknown_tool_witness :
    "agentfund_cancel_project" ∉ toolNames ∧
    dispatch (demoChain 0) "agentfund_cancel_project" noArgs =
      (errorPayload "Unknown tool: agentfund_cancel_project", []) := by
  have h : "agentfund_cancel_project" ∉ toolNames := by decide
  exact ⟨h, (dispatch_unknown_tool (demoChain 0) noArgs _ h).2⟩

/-- C7: the `getProject` tool renders status codes 0, 1, 2 as
`Active`, `Completed`, `Cancelled`, renders every out-of-range code as
the literal `"Unknown"`, and still succeeds (non-error payload built
by `getProjectText`, whose status line is `statusLabel`) whatever the
status code is. -/
theorem getProject_status_rendering :
    statusLabel 0 = "Active" ∧ statusLabel 1 = "Completed" ∧
    statusLabel 2 = "Cancelled" ∧
    (∀ s, 3 ≤ s → statusLabel s = "Unknown") ∧
    (∀ (c : Chain) (args : Args) (n : Int) (p : Project),
      getBigInt args.projectId = .ok n → uint256Ok n = true →
      c.getProject n.toNat = .ok p →
      getProject c args =
        (.ok ⟨[getProjectText (jsStr args.projectId) p], false⟩,
          [.getProjectCall n.toNat]) ∧
      getProjectText (jsStr args.projectId) p =
        "**Project #" ++ jsStr args.projectId ++ "**\n" ++ "Status: " ++
          statusLabel p.status ++ "\n" ++ "Agent (recipient): " ++ p.agent ++
          "\n" ++ "Funder: " ++ p.funder ++ "\n" ++ "Total: " ++
          formatEther p.totalAmount ++ " ETH\n" ++ "Released: " ++
          formatEther p.releasedAmount ++ " ETH\n" ++ "Remaining: " ++
          formatEther ((p.totalAmount : Int) - (p.releasedAmount : Int)) ++
          " ETH\n" ++ "Milestone: " ++ toString p.currentMilestone ++ " of " ++
          toString p.totalMilestones) := by
  refine ⟨rfl, rfl, rfl, ?_, ?_⟩
  · intro s hs
    simp [statusLabel, statusLookup_of_ge_three s hs]
  · intro c args n p hBig hU hP
    refine ⟨?_, rfl⟩
    unfold getProject callGetProject
    rw [hBig]
    simp [hU, hP]

/-- C4: once the project is fetched, a status label other than
`Active` (`Completed`, `Cancelled`, or the undefined label of an
out-of-range code) makes `generateReleaseRequest` return an
`isError`-flagged payload interpolating that status, with no
calldata-encoding call in its trace; only status `Active` (code 0)
reaches the `releaseMilestone` encoding and the unsigned-transaction
payload. -/
theorem generateReleaseRequest_status_guard (c : Chain) (args : Args)
    (n : Int) (p : Project)
    (hBig : getBigInt args.projectId = .ok n) (hU : uint256Ok n = true)
    (hP : c.getProject n.toNat = .ok p) :
    (p.status ≠ 0 →
      generateReleaseRequest c args =
        (.ok ⟨["Cannot release milestone - project is " ++
          jsStr (statusLookup p.status)], true⟩, [.getProjectCall n.toNat]) ∧
      Ev.encodeCall "releaseMilestone" ∉ (generateReleaseRequest c args).2) ∧
    (p.status = 0 →
      generateReleaseRequest c args =
        (.ok ⟨[releaseRequestText args p (.releaseMilestone n)], false⟩,
          [.getProjectCall n.toNat, .encodeCall "releaseMilestone"])) := by
  constructor
  · intro h0
    have hne : statusLookup p.status ≠ some "Active" := fun hc =>
      h0 ((statusLookup_eq_active p.status).mp hc)
    have heq : generateReleaseRequest c args =
        (.ok ⟨["Cannot release milestone - project is " ++
          jsStr (statusLookup p.status)], true⟩, [.getProjectCall n.toNat]) := by
      unfold generateReleaseRequest callGetProject
      rw [hBig]
      simp [hU, hP, hne]
    exact ⟨heq, by rw [heq]; simp⟩
  · intro h0
    have hact : statusLookup p.status = some "Active" :=
      (statusLookup_eq_active p.status).mpr h0
    unfold generateReleaseRequest callGetProject encodeReleaseMilestone
    rw [hBig]
    simp [hU, hP, hact]

theorem generateReleaseRequest_status_guard_witness :
    ((demoProject 2).status ≠ 0 ∧
      generateReleaseRequest (demoChain 2) pidArgs =
        (.ok ⟨["Cannot release milestone - project is " ++
          jsStr (statusLookup (demoProject 2).status)], true⟩,
          [.getProjectCall (Int.toNat 1)]) ∧
      Ev.encodeCall "releaseMilestone" ∉
        (generateReleaseRequest (demoChain 2) pidArgs).2) ∧
    ((demoProject 0).status = 0 ∧
      generateReleaseRequest (demoChain 0) pidArgs =
        (.ok ⟨[releaseRequestText pidArgs (demoProject 0) (.releaseMilestone 1)],
          false⟩,
          [.getProjectCall (Int.toNat 1), .encodeCall "releaseMilestone"])) :=
  ⟨⟨by decide,
    (generateReleaseRequest_status_guard (demoChain 2) pidArgs 1 (demoProject 2)
      rfl rfl rfl).1 (by decide)⟩,
   ⟨rfl,
    (generateReleaseRequest_status_guard (demoChain 0) pidArgs 1 (demoProject 0)
      rfl rfl rfl).2 rfl⟩⟩

/-- C3: the agent scan visits exactly the ids `1..min(count, 100)` (a
hard cutoff), sequentially in ascending order (the trace); a per-id
fetch failure makes that one step contribute nothing, the scan itself
still succeeding; a step matches exactly when the fetched project's
agent equals the requested address after `toLowerCase` on both sides;
and the accumulated matches carry strictly ascending ids. -/
theorem findMyProjects_scan (c : Chain) (a : String) (args : Args)
    (h : args.agentAddress = some a) :
    (∀ i, i ∈ scanIds (min c.projectCount 100) ↔
      1 ≤ i ∧ i ≤ min c.projectCount 100) ∧
    (findMyProjects c args).2 =
      Ev.projectCountCall ::
        (scanIds (min c.projectCount 100)).map Ev.getProjectCall ∧
    (∀ i e, c.getProject i = .error e → scanStep c (some a) i = none) ∧
    (∃ r, (findMyProjects c args).1 = .ok r) ∧
    (∀ i m, scanStep c (some a) i = some m ↔
      ∃ p, c.getProject i = .ok p ∧ toLowerCase p.agent = toLowerCase a ∧
        m = toMatched i p) ∧
    ((scanMatches c (some a)).map MatchedProject.id).Pairwise (· < ·) ∧
    (scanMatches c (some a) ≠ [] →
      (findMyProjects c args).1 =
        .ok ⟨["**Your Projects on AgentFund**\n" ++
          String.intercalate "\n" ((scanMatches c (some a)).map matchLine)],
          false⟩) := by
  refine ⟨mem_scanIds _, ?_, ?_, ?_, ?_, ?_, ?_⟩
  · unfold findMyProjects
    dsimp only
    split <;> rfl
  · intro i e he
    simp [scanStep, he]
  · unfold findMyProjects
    dsimp only
    split
    · exact ⟨_, rfl⟩
    · exact ⟨_, rfl⟩
  · intro i m
    constructor
    · intro hstep
      unfold scanStep at hstep
      cases hp : c.getProject i with
      | error e => rw [hp] at hstep; simp at hstep
      | ok p =>
        rw [hp] at hstep
        dsimp only at hstep
        by_cases hc : toLowerCase p.agent = toLowerCase a
        · rw [if_pos hc] at hstep
          exact ⟨p, rfl, hc, (Option.some.inj hstep).symm⟩
        · rw [if_neg hc] at hstep; simp at hstep
    · rintro ⟨p, hp, hc, rfl⟩
      simp [scanStep, hp, hc]
  · exact pairwise_filterMap_id (fun i m hm => scanStep_id c (some a) i m hm) _
      (scanIds_pairwise _)
  · intro hne
    unfold findMyProjects
    rw [h]
    dsimp only
    split
    · next hemp => exact absurd (List.isEmpty_iff.mp hemp) hne
    · rfl

theorem findMyProjects_scan_witness :
    findArgs.agentAddress = some demoAgent ∧
    (findMyProjects (demoChain 0) findArgs).2 =
      Ev.projectCountCall ::
        (scanIds (min (demoChain 0).projectCount 100)).map Ev.getProjectCall ∧
    (∃ r, (findMyProjects (demoChain 0) findArgs).1 = .ok r) ∧
    ((scanMatches (demoChain 0) (some demoAgent)).map
      MatchedProject.id).Pairwise (· < ·) ∧
    (scanMatches (demoChain 0) (some demoAgent) ≠ [] →
      (findMyProjects (demoChain 0) findArgs).1 =
        .ok ⟨["**Your Projects on AgentFund**\n" ++
          String.intercalate "\n"
            ((scanMatches (demoChain 0) (some demoAgent)).map matchLine)],
          false⟩) :=
  ⟨rfl,
    (findMyProjects_scan (demoChain 0) demoAgent findArgs rfl).2.1,
    (findMyProjects_scan (demoChain 0) demoAgent findArgs rfl).2.2.2.1,
    (findMyProjects_scan (demoChain 0) demoAgent findArgs rfl).2.2.2.2.2.1,
    (findMyProjects_scan (demoChain 0) demoAgent findArgs rfl).2.2.2.2.2.2⟩

/-- C2: `createFundraise` is chain-independent and a pure function of
its arguments, so identical `(agentAddress, milestoneAmounts)` inputs
always yield identical calldata and identical summed value; the
attached value is the exact integer (bigint) sum of the parsed
smallest-unit amounts — `totalValueOf` is literally `List.sum`, with
no floating-point accumulation anywhere — and `["0.01","0.02"]`
parses to smallest-unit values summing to exactly the smallest-unit
value of `"0.03"`. -/
theorem createFundraise_exact_total (c c2 : Chain) (args : Args)
    (amts : List String) (ws : List Int)
    (hA : args.milestoneAmountsEth = some amts)
    (hP : mapExcept parseEther amts = .ok ws) :
    createFundraise c args = createFundraise c2 args ∧
    totalValueOf ws = ws.sum ∧
    (∀ a, args.agentAddress = some a → isAddress a = true →
      ws.all uint256Ok = true →
      createFundraise c args =
        (.ok ⟨[createFundraiseText args amts (formatEther ws.sum)
          (.createProject a ws)], false⟩, [.encodeCall "createProject"])) ∧
    (mapExcept parseEther ["0.01", "0.02"] =
        .ok [10000000000000000, 20000000000000000] ∧
      totalValueOf [10000000000000000, 20000000000000000] = 30000000000000000 ∧
      parseEther "0.03" = .ok 30000000000000000) := by
  refine ⟨rfl, foldl_add_int ws, ?_, rfl, rfl, rfl⟩
  intro a ha hAddr hAll
  simp [createFundraise, hA, hP, ha, encodeCreateProject, hAddr, hAll,
    totalValueOf, foldl_add_int]

theorem createFundraise_exact_total_witness :
    fundraiseArgs.milestoneAmountsEth = some ["0.01", "0.02"] ∧
    mapExcept parseEther ["0.01", "0.02"] =
      .ok [10000000000000000, 20000000000000000] ∧
    fundraiseArgs.agentAddress = some demoAgent ∧ isAddress demoAgent = true ∧
    ([(10000000000000000 : Int), 20000000000000000].all uint256Ok = true) ∧
    createFundraise (demoChain 0) fundraiseArgs =
      createFundraise emptyChain fundraiseArgs ∧
    createFundraise (demoChain 0) fundraiseArgs =
      (.ok ⟨[createFundraiseText fundraiseArgs ["0.01", "0.02"]
        (formatEther (List.sum [(10000000000000000 : Int), 20000000000000000]))
        (.createProject demoAgent [10000000000000000, 20000000000000000])],
        false⟩, [.encodeCall "createProject"]) :=
  ⟨rfl, rfl, rfl, rfl, rfl,
    (createFundraise_exact_total (demoChain 0) emptyChain fundraiseArgs
      ["0.01", "0.02"] [10000000000000000, 20000000000000000] rfl rfl).1,
    (createFundraise_exact_total (demoChain 0) emptyChain fundraiseArgs
      ["0.01", "0.02"] [10000000000000000, 20000000000000000] rfl rfl).2.2.1
      demoAgent rfl rfl rfl⟩

/-- C6: a milestone amount list containing a non-numeric entry (the
parse throws) or a negative entry (the parse succeeds with a negative
wei value, which the uint256 coder then rejects) makes
`createFundraise` fail: the handler propagates an exception, the
dispatcher converts it to the error payload, and no `.ok` proposal
payload (hence no calldata value) is ever produced. -/
theorem createFundraise_invalid_amount (c : Chain) (args : Args)
    (amts : List String) (hA : args.milestoneAmountsEth = some amts)
    (hBad : (∃ x ∈ amts, ∃ e, parseEther x = .error e) ∨
      (∃ x ∈ amts, ∃ v : Int, parseEther x = .ok v ∧ v < 0)) :
    (∃ e, (createFundraise c args).1 = .error e ∧
      dispatch c "agentfund_create_fundraise" args =
        (errorPayload e, (createFundraise c args).2)) ∧
    ∀ r, (createFundraise c args).1 ≠ .ok r := by
  have key : ∃ e, (createFundraise c args).1 = .error e := by
    rcases hBad with hb | ⟨x, hx, v, hv, hneg⟩
    · obtain ⟨e, hme⟩ := mapExcept_error_of_exists hb
      exact ⟨e, by simp [createFundraise, hA, hme]⟩
    · cases hM : mapExcept parseEther amts with
      | error e => exact ⟨e, by simp [createFundraise, hA, hM]⟩
      | ok ws =>
        have hmem : v ∈ ws := mapExcept_ok_mem hM hx hv
        have hvf : uint256Ok v = false := by
          have hv0 : ¬ (0 ≤ v) := by omega
          simp [uint256Ok, hv0]
        have hall : ws.all uint256Ok = false :=
          List.all_eq_false.mpr ⟨v, hmem, by simp [hvf]⟩
        have henc : ∃ e, encodeCreateProject args.agentAddress ws = .error e := by
          cases hag : args.agentAddress with
          | none => exact ⟨"invalid address", by simp [encodeCreateProject]⟩
          | some a =>
            by_cases ha2 : isAddress a
            · exact ⟨"value out-of-bounds",
                by simp [encodeCreateProject, ha2, hall]⟩
            · exact ⟨"invalid address", by simp [encodeCreateProject, ha2]⟩
        obtain ⟨e, he⟩ := henc
        exact ⟨e, by simp [createFundraise, hA, hM, he]⟩
  obtain ⟨e, he⟩ := key
  have hct : callTool c "agentfund_create_fundraise" args =
      createFundraise c args := rfl
  refine ⟨⟨e, he, ?_⟩, ?_⟩
  · unfold dispatch
    rw [hct]
    rcases hcf : createFundraise c args with ⟨res, t⟩
    rw [hcf] at he
    cases res with
    | ok r => simp at he
    | error e2 =>
      obtain rfl : e2 = e := by simpa using he
      rfl
  · intro r hr
    rw [hr] at he
    simp at he

theorem createFundraise_invalid_amount_witness :
    (⟨none, some demoAgent, some ["abc"], none, none⟩ : Args).milestoneAmountsEth =
      some ["abc"] ∧
    ("abc" ∈ ["abc"] ∧ parseEther "abc" = .error "invalid FixedNumber string value") ∧
    (∃ e, (createFundraise (demoChain 0)
        ⟨none, some demoAgent, some ["abc"], none, none⟩).1 = .error e ∧
      dispatch (demoChain 0) "agentfund_create_fundraise"
          ⟨none, some demoAgent, some ["abc"], none, none⟩ =
        (errorPayload e, (createFundraise (demoChain 0)
          ⟨none, some demoAgent, some ["abc"], none, none⟩).2)) :=
  ⟨rfl, ⟨by simp, rfl⟩,
    (createFundraise_invalid_amount (demoChain 0)
      ⟨none, some demoAgent, some ["abc"], none, none⟩ ["abc"] rfl
      (Or.inl ⟨"abc", by simp, "invalid FixedNumber string value", rfl⟩)).1⟩

/-- C8: when no scanned project matches the requested address the
handler returns the distinct "none found" text payload (not an empty
list rendering, not an error); with `projectCount = 0` it does so with
a trace containing the count read and no per-id `getProject` fetch at
all. -/
theorem findMyProjects_none_found (c : Chain) (args : Args) (a : String)
    (h : args.agentAddress = some a) :
    (scanMatches c (some a) = [] →
      (findMyProjects c args).1 = .ok ⟨[noneFoundText a], false⟩) ∧
    (c.projectCount = 0 →
      findMyProjects c args =
        (.ok ⟨[noneFoundText a], false⟩, [Ev.projectCountCall]) ∧
      ∀ i, Ev.getProjectCall i ∉ (findMyProjects c args).2) := by
  constructor
  · intro hm
    simp [findMyProjects, h, hm, jsStr]
  · intro h0
    have heq : findMyProjects c args =
        (.ok ⟨[noneFoundText a], false⟩, [Ev.projectCountCall]) := by
      simp [findMyProjects, h, h0, scanMatches, scanIds, jsStr]
    exact ⟨heq, fun i => by rw [heq]; simp⟩

theorem findMyProjects_none_found_witness :
    (funderArgs.agentAddress = some demoFunder ∧
      scanMatches (demoChain 0) (some demoFunder) = [] ∧
      (findMyProjects (demoChain 0) funderArgs).1 =
        .ok ⟨[noneFoundText demoFunder], false⟩) ∧
    (emptyChain.projectCount = 0 ∧
      findMyProjects emptyChain findArgs =
        (.ok ⟨[noneFoundText demoAgent], false⟩, [Ev.projectCountCall])) :=
  ⟨⟨rfl, rfl,
    (findMyProjects_none_found (demoChain 0) funderArgs demoFunder rfl).1 rfl⟩,
   ⟨rfl,
    ((findMyProjects_none_found emptyChain findArgs demoAgent rfl).2 rfl).1⟩⟩

/-- C5 counterexample: the dispatcher performs no argument-schema
validation before invoking a handler.  Dispatching
`agentfund_find_my_projects` with an empty argument mapping (the
required `agentAddress` missing) still invokes the handler — the trace
shows the count read and a per-id fetch — and returns the ordinary
non-error "none found" payload (rendering the absent address as
`undefined`), not a structured validation error. -/
theorem dispatch_no_prevalidation_counterexample :
    noArgs.agentAddress = none ∧
    dispatch (demoChain 0) "agentfund_find_my_projects" noArgs =
      (⟨[noneFoundText "undefined"], false⟩,
        [Ev.projectCountCall, Ev.getProjectCall 1]) ∧
    (dispatch (demoChain 0) "agentfund_find_my_projects" noArgs).1.isError
      = false :=
  ⟨rfl, rfl, rfl⟩

/-- C5 amended: the dispatcher passes the raw argument mapping to the
handler unchecked.  When a missing argument makes the handler throw
(e.g. `create_fundraise` without `milestoneAmountsEth`, whose `.map`
access fails), the exception is caught at the boundary and surfaced as
the structured error payload — never a crash; but a missing
`agentAddress` in `find_my_projects` is swallowed per-id and yields a
normal non-error payload instead of any validation error. -/
theorem dispatch_no_prevalidation_amended :
    (∀ (c : Chain) (args : Args), args.milestoneAmountsEth = none →
      dispatch c "agentfund_create_fundraise" args =
        (errorPayload "Cannot read properties of undefined (reading \u0027map\u0027)",
          [])) ∧
    (∀ (c : Chain) (args : Args), args.agentAddress = none →
      (findMyProjects c args).1 =
        .ok ⟨[noneFoundText "undefined"], false⟩) := by
  constructor
  · intro c args hA
    have hct : callTool c "agentfund_create_fundraise" args =
        createFundraise c args := rfl
    have hcf : createFundraise c args =
        (.error "Cannot read properties of undefined (reading \u0027map\u0027)",
          []) := by
      simp [createFundraise, hA]
    unfold dispatch
    rw [hct, hcf]
  · intro c args hA
    have hm : scanMatches c none = [] :=
      List.filterMap_eq_nil_iff.mpr (fun i _ => scanStep_none_addr c i)
    simp [findMyProjects, hA, hm, jsStr]

theorem dispatch_no_prevalidation_amended_witness :
    noArgs.milestoneAmountsEth = none ∧ noArgs.agentAddress = none ∧
    dispatch (demoChain 0) "agentfund_create_fundraise" noArgs =
      (errorPayload "Cannot read properties of undefined (reading \u0027map\u0027)",
        []) ∧
    (findMyProjects (demoChain 0) noArgs).1 =
      .ok ⟨[noneFoundText "undefined"], false⟩ :=
  ⟨rfl, rfl, dispatch_no_prevalidation_amended.1 (demoChain 0) noArgs rfl,
    dispatch_no_prevalidation_amended.2 (demoChain 0) noArgs rfl⟩

/-- C10: a project matched by the scan whose status code is outside
`{0,1,2}` has no defined status label (`statusLookup` is `none`), and
its rendered line interpolates `undefined` — the `"Unknown"` fallback
is applied only by `statusLabel`, which `getProject` uses and the
match renderer does not. -/
theorem findMyProjects_no_unknown_fallback (i : Nat) (p : Project)
    (h : 3 ≤ p.status) :
    statusLookup p.status = none ∧
    (toMatched i p).status = none ∧
    matchLine (toMatched i p) =
      "• Project #" ++ toString i ++ ": " ++ "undefined" ++ " - " ++
        formatEther p.releasedAmount ++ "/" ++ formatEther p.totalAmount ++
        " ETH released (Milestone " ++
        (toString p.currentMilestone ++ "/" ++ toString p.totalMilestones) ++
        ")" ∧
    statusLabel p.status = "Unknown" := by
  have hn := statusLookup_of_ge_three p.status h
  refine ⟨hn, ?_, ?_, ?_⟩
  · simp [toMatched, hn]
  · simp [matchLine, toMatched, hn, jsStr]
  · simp [statusLabel, hn]

theorem findMyProjects_no_unknown_fallback_witness :
    3 ≤ (demoProject 7).status ∧
    statusLookup (demoProject 7).status = none ∧
    statusLabel (demoProject 7).status = "Unknown" ∧
    matchLine (toMatched 1 (demoProject 7)) =
      "• Project #1: undefined - 0.0/0.001 ETH released (Milestone 0/1)" ∧
    ¬ ("Unknown".toList <:+: (matchLine (toMatched 1 (demoProject 7))).toList) :=
  ⟨by decide,
    (findMyProjects_no_unknown_fallback 1 (demoProject 7) (by decide)).1,
    (findMyProjects_no_unknown_fallback 1 (demoProject 7) (by decide)).2.2.2,
    ((findMyProjects_no_unknown_fallback 1 (demoProject 7) (by decide)).2.2.1).trans
      (by rfl),
    by decide⟩

theorem getProject_status_rendering_witness :
    (3 ≤ 7 ∧ statusLabel 7 = "Unknown") ∧
    (getBigInt pidArgs.projectId = .ok 1 ∧ uint256Ok 1 = true ∧
      (demoChain 7).getProject (Int.toNat 1) = .ok (demoProject 7) ∧
      getProject (demoChain 7) pidArgs =
        (.ok ⟨[getProjectText (jsStr pidArgs.projectId) (demoProject 7)], false⟩,
          [.getProjectCall (Int.toNat 1)])) :=
  ⟨⟨by omega, getProject_status_rendering.2.2.2.1 7 (by omega)⟩,
    ⟨rfl, rfl, rfl,
      (getProject_status_rendering.2.2.2.2 (demoChain 7) pidArgs 1
        (demoProject 7) rfl rfl rfl).1⟩⟩

end AgentFund
